import Mathlib

/-!
Verification of the `TimelessTitleCard` card type
(`src/Timeless/card_types/TimelessTitleCard.py`).

The module builds an ordered ImageMagick command list that composites
gradient, index-text and title-text layers onto a source image.  We embed
the card construction (`__init__`), the layout measurement
(`get_title_dimensions`, memoized), the six text-layer command builders,
and the pipeline assembly (`create`) as executable Lean definitions.
ImageMagick subcommands are modelled as a structured operation type `Op`
carrying exactly the parameters the Python code interpolates into each
command string.  The external renderer's text-measurement capability is a
parameter (`Measure`); the runtime state threads the memoization cache and
an invocation counter for it.
-/

/-- Python `str.split(sep)` for a single-character separator, over an
explicit character list with an accumulator of the current (reversed)
segment.  Like Python, empty segments are kept and the result is never
empty (`"".split('\n') == ['']`). -/
def pySplitChar (sep : Char) : List Char → List Char → List String
  | [], acc => [String.mk acc.reverse]
  | c :: rest, acc =>
      if c = sep then String.mk acc.reverse :: pySplitChar sep rest []
      else pySplitChar sep rest (c :: acc)

/-- Python `s.split(sep)` with a single-character separator. -/
def pySplit (s : String) (sep : Char) : List String :=
  pySplitChar sep s.data []

/-- Characters Python `str.splitlines` treats as line boundaries. -/
def isLineBoundary (c : Char) : Bool :=
  c = '\n' || c = '\r' || c = '\x0b' || c = '\x0c' ||
  c = '\x1c' || c = '\x1d' || c = '\x1e' || c = '\x85' ||
  c = '\u2028' || c = '\u2029'

/-- Worker for Python `str.splitlines`: `'\r\n'` counts as one boundary,
and (unlike `split`) a trailing boundary produces no trailing empty
segment (`"a\n".splitlines() == ['a']`, `"".splitlines() == []`). -/
def splitlinesChars : List Char → Bool → List Char → List String
  | [], _, acc => if acc.isEmpty then [] else [String.mk acc.reverse]
  | c :: rest, skipLF, acc =>
      if skipLF && c = '\n' then splitlinesChars rest false acc
      else if c = '\r' then String.mk acc.reverse :: splitlinesChars rest true []
      else if isLineBoundary c then String.mk acc.reverse :: splitlinesChars rest false []
      else splitlinesChars rest false (c :: acc)

/-- Python `s.splitlines()`. -/
def pySplitlines (s : String) : List String :=
  splitlinesChars s.data false []

/-- Modelled from the spec: `escape_chars` of the ImageMagick interface
(defined in `modules.BaseCardType` / the ImageMagick interface module,
which is not under `src/`).  Per the spec's Escaping rule, free-text
strings are escaped for the characters special to the renderer's
text-annotation syntax — quotes and backslashes — by prefixing a
backslash; every other character (newlines included) passes through
unchanged. -/
def escape_chars (s : String) : String :=
  String.mk ((s.data.map (fun c =>
    if c = '"' || c = '\\' then ['\\', c] else [c])).flatten)

/-- One ImageMagick subcommand, with the parameters the Python code
interpolates into the corresponding command string. -/
inductive Op where
  /-- The `convert` program name heading the argument list. -/
  | convert : Op
  /-- The quoted source-image path. -/
  | loadSource (path : String) : Op
  /-- Opaque resize-and-style directives from the base class. -/
  | resizeAndStyle : Op
  /-- A quoted image path given as a compositing source. -/
  | compositeImage (path : String) : Op
  /-- The `-composite` flag. -/
  | composite : Op
  | font (file : String) : Op
  | gravity (g : String) : Op
  | pointsize (size : ℚ) : Op
  | kerning (k : Int) : Op
  | interlineSpacing (s : Int) : Op
  | background (b : String) : Op
  | fill (color : String) : Op
  /-- Text annotation `-annotate +x+y text` with its two offsets. -/
  | annotate (x y : Int) (text : String) : Op
  /-- Opaque mask-overlay commands from the base class. -/
  | overlayMask : Op
  /-- Opaque output-resize commands from the base class. -/
  | resizeOutput : Op
  /-- The quoted output-card path. -/
  | writeOutput (path : String) : Op
deriving DecidableEq, Repr

/-- Class constant `REF_DIRECTORY` (a filesystem path; modelled as its
relative string form). -/
def REF_DIRECTORY : String := "Timeless/card_types/ref"

/-- Class constant `TITLE_FONT`. -/
def TITLE_FONT : String := REF_DIRECTORY ++ "/fonts/Timeless-Main.otf"

/-- Class constant `TITLE_FONT_INFILL`. -/
def TITLE_FONT_INFILL : String := REF_DIRECTORY ++ "/fonts/Timeless-Infill.otf"

/-- Class constant `TITLE_FONT_GEARS`. -/
def TITLE_FONT_GEARS : String := REF_DIRECTORY ++ "/fonts/Timeless-Gears.otf"

/-- Class constant `TITLE_COLOR`. -/
def TITLE_COLOR : String := "#FFFFFF"

/-- Class constant `TITLE_COLOR_INFILL`. -/
def TITLE_COLOR_INFILL : String := "#000000"

/-- Class constant `TITLE_COLOR_GEARS`. -/
def TITLE_COLOR_GEARS : String := "#000000"

/-- Class constant `EPISODE_TEXT_FONT`. -/
def EPISODE_TEXT_FONT : String := REF_DIRECTORY ++ "/fonts/Timeless-Main.otf"

/-- Class constant `EPISODE_TEXT_FONT_INFILL`. -/
def EPISODE_TEXT_FONT_INFILL : String := REF_DIRECTORY ++ "/fonts/Timeless-Infill.otf"

/-- Class constant `EPISODE_TEXT_FONT_GEARS`. -/
def EPISODE_TEXT_FONT_GEARS : String := REF_DIRECTORY ++ "/fonts/Timeless-Gears.otf"

/-- Class constant `EPISODE_TEXT_FORMAT`. -/
def EPISODE_TEXT_FORMAT : String := "EPISODE {episode_number}"

/-- Class constant `EPISODE_TEXT_COLOR`. -/
def EPISODE_TEXT_COLOR : String := "#FFFFFF"

/-- Class constant `EPISODE_TEXT_COLOR_INFILL`. -/
def EPISODE_TEXT_COLOR_INFILL : String := "#000000"

/-- Class constant `EPISODE_TEXT_COLOR_GEARS`. -/
def EPISODE_TEXT_COLOR_GEARS : String := "#000000"

/-- Class constant `__GRADIENT_IMAGE`. -/
def GRADIENT_IMAGE : String := REF_DIRECTORY ++ "/overlays/gradient.png"

/-- The keyword arguments of `TimelessTitleCard.__init__` (one CardSpec
request).  Python's `float` font size multiplier is modelled as a
rational; the claims only multiply it by the constant 256. -/
structure CardInputs where
  source_file : String
  card_file : String
  title_text : String
  season_text : String
  episode_text : String
  hide_season_text : Bool := false
  hide_episode_text : Bool := false
  font_file : String := TITLE_FONT
  font_color : String := TITLE_COLOR
  font_size : ℚ := 1
  font_interline_spacing : Int := 0
  font_vertical_shift : Int := 0
  episode_text_color : String := EPISODE_TEXT_COLOR
deriving DecidableEq, Repr

/-- The attribute state a `TimelessTitleCard` holds after `__init__`
(text fields already escaped, derived sizes and offsets computed). -/
structure TimelessTitleCard where
  source_file : String
  output_file : String
  title_text : String
  season_text : String
  episode_text : String
  hide_season_text : Bool
  hide_episode_text : Bool
  line_count : Nat
  font_file : String
  font_color : String
  font_size : ℚ
  font_interline_spacing : Int
  font_vertical_shift : Int
  episode_text_color : String
  title_text_size : ℚ
  index_text_size : ℚ
  y : Int
deriving DecidableEq, Repr

/-- Constructor `TimelessTitleCard.__init__`: escape the three text fields once,
count the newline-separated segments of the raw title text, and compute
the derived font and offset attributes. -/
def TimelessTitleCard.init (i : CardInputs) : TimelessTitleCard where
  source_file := i.source_file
  output_file := i.card_file
  title_text := escape_chars i.title_text
  season_text := escape_chars i.season_text
  episode_text := escape_chars i.episode_text
  hide_season_text := i.hide_season_text
  hide_episode_text := i.hide_episode_text
  line_count := (pySplit i.title_text '\n').length
  font_file := i.font_file
  font_color := i.font_color
  font_size := i.font_size
  font_interline_spacing := -50 + i.font_interline_spacing
  font_vertical_shift := i.font_vertical_shift
  episode_text_color := i.episode_text_color
  title_text_size := 256 * i.font_size
  index_text_size := 60
  y := 47 + i.font_vertical_shift

/-- Width and height returned by the external text measurement
(`ImageMagickInterface.get_text_dimensions`), in renderer units. -/
structure Dimensions where
  width : Int
  height : Int
deriving DecidableEq, Repr

/-- The external renderer's text-measurement capability: it receives the
title-text subcommands, the interline spacing, and the line count that
`get_title_dimensions` passes it, and yields dimensions. -/
abbrev Measure : Type := List Op → Int → Nat → Dimensions

/-- The mutable per-instance state alongside the constructed card: the
memoization field `_title_text_dimensions` and a count of how many times
the external measurement capability has been invoked. -/
structure CardState where
  card : TimelessTitleCard
  title_text_dimensions : Option Dimensions
  measure_calls : Nat
deriving DecidableEq, Repr

/-- The state right after `__init__`: coordinates and dimensions caches
hold `None`, and the external measurement has not been invoked. -/
def initState (i : CardInputs) : CardState where
  card := TimelessTitleCard.init i
  title_text_dimensions := none
  measure_calls := 0

/-- Property `title_text_commands`: the subcommands adding the main
title-text layer. -/
def title_text_commands (c : TimelessTitleCard) : List Op :=
  [ Op.font c.font_file,
    Op.gravity "south",
    Op.pointsize c.title_text_size,
    Op.kerning 0,
    Op.interlineSpacing c.font_interline_spacing,
    Op.background "transparent",
    Op.fill c.font_color,
    Op.annotate 0 c.y c.title_text ]

/-- Property `title_text_infill_commands`: the infill title-text layer. -/
def title_text_infill_commands (c : TimelessTitleCard) : List Op :=
  [ Op.font TITLE_FONT_INFILL,
    Op.gravity "south",
    Op.pointsize c.title_text_size,
    Op.kerning 0,
    Op.interlineSpacing c.font_interline_spacing,
    Op.background "transparent",
    Op.fill TITLE_COLOR_INFILL,
    Op.annotate 0 c.y c.title_text ]

/-- Property `title_text_gears_commands`: the gears title-text layer. -/
def title_text_gears_commands (c : TimelessTitleCard) : List Op :=
  [ Op.font TITLE_FONT_GEARS,
    Op.gravity "south",
    Op.pointsize c.title_text_size,
    Op.kerning 0,
    Op.interlineSpacing c.font_interline_spacing,
    Op.background "transparent",
    Op.fill TITLE_COLOR_GEARS,
    Op.annotate 0 c.y c.title_text ]

/-- Method `get_title_dimensions`: return the memoized dimensions when
present; otherwise invoke the external measurement with the title-text
subcommands, the interline spacing, and `len(self.title_text.splitlines())`
(the escaped title text), cache the result and count the invocation. -/
def get_title_dimensions (m : Measure) (s : CardState) :
    Dimensions × CardState :=
  match s.title_text_dimensions with
  | some d => (d, s)
  | none =>
      let d := m (title_text_commands s.card) s.card.font_interline_spacing
        (pySplitlines s.card.title_text).length
      (d, { s with title_text_dimensions := some d,
                   measure_calls := s.measure_calls + 1 })

/-- Property `index_text_commands`: empty when both season and episode
text are hidden; otherwise resolve the index text, fetch the title
dimensions (memoized), and emit the main index-text layer at offset
`y + title_height - 10`. -/
def index_text_commands (m : Measure) (s : CardState) :
    List Op × CardState :=
  let c := s.card
  if c.hide_season_text && c.hide_episode_text then ([], s)
  else
    let index_text :=
      if c.hide_season_text then c.episode_text
      else if c.hide_episode_text then c.season_text
      else c.season_text ++ " • " ++ c.episode_text
    let r := get_title_dimensions m s
    let index_offset := c.y + r.1.height - 10
    ([ Op.font EPISODE_TEXT_FONT,
       Op.gravity "south",
       Op.pointsize c.index_text_size,
       Op.kerning 0,
       Op.fill c.episode_text_color,
       Op.annotate 0 index_offset index_text ], r.2)

/-- Property `index_text_infill_commands`: as `index_text_commands`, with
the infill font and color. -/
def index_text_infill_commands (m : Measure) (s : CardState) :
    List Op × CardState :=
  let c := s.card
  if c.hide_season_text && c.hide_episode_text then ([], s)
  else
    let index_text :=
      if c.hide_season_text then c.episode_text
      else if c.hide_episode_text then c.season_text
      else c.season_text ++ " • " ++ c.episode_text
    let r := get_title_dimensions m s
    let index_offset := c.y + r.1.height - 10
    ([ Op.font EPISODE_TEXT_FONT_INFILL,
       Op.gravity "south",
       Op.pointsize c.index_text_size,
       Op.kerning 0,
       Op.fill EPISODE_TEXT_COLOR_INFILL,
       Op.annotate 0 index_offset index_text ], r.2)

/-- Property `index_text_gears_commands`: as `index_text_commands`, with
the gears font and color. -/
def index_text_gears_commands (m : Measure) (s : CardState) :
    List Op × CardState :=
  let c := s.card
  if c.hide_season_text && c.hide_episode_text then ([], s)
  else
    let index_text :=
      if c.hide_season_text then c.episode_text
      else if c.hide_episode_text then c.season_text
      else c.season_text ++ " • " ++ c.episode_text
    let r := get_title_dimensions m s
    let index_offset := c.y + r.1.height - 10
    ([ Op.font EPISODE_TEXT_FONT_GEARS,
       Op.gravity "south",
       Op.pointsize c.index_text_size,
       Op.kerning 0,
       Op.fill EPISODE_TEXT_COLOR_GEARS,
       Op.annotate 0 index_offset index_text ], r.2)

/-- Property `gradient_commands`: composite the fixed gradient overlay. -/
def gradient_commands : List Op :=
  [ Op.compositeImage GRADIENT_IMAGE, Op.composite ]

/-- Modelled from the spec: `resize_and_style` is inherited from
`modules.BaseCardType` (not under `src/`); the spec treats it as opaque
delegated resize-and-style directives, so it is one opaque operation. -/
def resize_and_style : List Op := [Op.resizeAndStyle]

/-- Modelled from the spec: `add_overlay_mask` is inherited from
`modules.BaseCardType` (not under `src/`); the spec treats the optional
mask overlay as opaque delegated commands, so it is one opaque
operation. -/
def add_overlay_mask (_sourceFile : String) : List Op := [Op.overlayMask]

/-- Modelled from the spec: `resize_output` is inherited from
`modules.BaseCardType` (not under `src/`); the spec treats the output
resize as opaque delegated commands, so it is one opaque operation. -/
def resize_output : List Op := [Op.resizeOutput]

/-- Method `create`: assemble the full argument list passed to the one
`image_magick.run` invocation, evaluating the three index-text properties
in order (these are what may trigger the title measurement) and then the
three title-text properties, the mask overlay, and the output resize. -/
def create (m : Measure) (s : CardState) : List Op × CardState :=
  let c := s.card
  let ix1 := index_text_commands m s
  let ix2 := index_text_infill_commands m ix1.2
  let ix3 := index_text_gears_commands m ix2.2
  ( [Op.convert, Op.loadSource c.source_file]
      ++ resize_and_style
      ++ gradient_commands
      ++ ix1.1 ++ ix2.1 ++ ix3.1
      ++ title_text_commands c
      ++ title_text_infill_commands c
      ++ title_text_gears_commands c
      ++ add_overlay_mask c.source_file
      ++ resize_output
      ++ [Op.writeOutput c.output_file],
    ix3.2 )


/-- Argument type of `is_custom_font`: the host application's `Font`
model object (defined outside this module).  Its fields are never read,
because the method body fails before touching them. -/
structure Font where
  file : String
  color : String
deriving DecidableEq, Repr

/-- The names bound at module scope of
`src/Timeless/card_types/TimelessTitleCard.py` at runtime: the imports of
lines 1-17 plus the two top-level definitions.  The `TYPE_CHECKING`
imports (`Preferences`, `Font`) are not bound at runtime. -/
def moduleScopeNames : List String :=
  [ "Path", "namedtuple", "Literal", "Optional", "TYPE_CHECKING",
    "root_validator", "BaseCardTypeCustomFontAllText", "BaseCardType",
    "ImageMagickCommands", "Extra", "CardDescription", "log", "EpisodeInfo",
    "SplitCharacteristics", "BoxCoordinates", "TimelessTitleCard" ]

/-- Static method `is_custom_font`.  Its body is the single statement
`return FontPreviewTitleCard._is_custom_font(font)`.  Evaluating it first
resolves the name `FontPreviewTitleCard`, which is neither imported nor
defined in the module (see `moduleScopeNames`), so every call raises a
`NameError` — modelled as `Except.error`.  The `Except.ok` branch stands
for the delegated call and is unreachable dead code. -/
def is_custom_font (font : Font) (extras : List (String × String)) :
    Except String Bool :=
  if "FontPreviewTitleCard" ∈ moduleScopeNames then
    Except.ok false
  else
    Except.error "NameError: name FontPreviewTitleCard is not defined"

/-- The slice of `modules.EpisodeInfo2.EpisodeInfo` that
`SEASON_TEXT_FORMATTER` reads. -/
structure EpisodeInfo where
  season_number : Nat
  episode_number : Nat
deriving DecidableEq, Repr

/-- Static method `SEASON_TEXT_FORMATTER`.  Note the value returned for a
nonzero season is the plain string literal `SEASON {season_number}` — not
an f-string — so the placeholder is never substituted. -/
def SEASON_TEXT_FORMATTER (episode_info : EpisodeInfo) : String :=
  if episode_info.season_number = 0 then "SPECIALS"
  else "SEASON {season_number}"

/-- String `t` occurs contiguously inside string `s` (Python `t in s`). -/
def hasSubstr (s t : String) : Prop :=
  ∃ l r : List Char, s.data = l ++ t.data ++ r

/-- The annotation texts of a subcommand list, in order. -/
def annotateTexts : List Op → List String
  | [] => []
  | Op.annotate _ _ t :: rest => t :: annotateTexts rest
  | _ :: rest => annotateTexts rest

/-- The annotation vertical offsets of a subcommand list, in order. -/
def annotateYOffsets : List Op → List Int
  | [] => []
  | Op.annotate _ y _ :: rest => y :: annotateYOffsets rest
  | _ :: rest => annotateYOffsets rest

/-- The index-text resolution rule exactly as the specification words it
(spec section 4.2): episode text alone when season text is hidden, season
text alone when episode text is hidden, otherwise season text and episode
text joined by a bullet with single spaces around it. -/
def specIndexText (seasonText episodeText : String)
    (hideSeason hideEpisode : Bool) : String :=
  if hideSeason then episodeText
  else if hideEpisode then seasonText
  else seasonText ++ " • " ++ episodeText

/-- A measurement stub returning fixed dimensions. -/
def constMeasure (w h : Int) : Measure := fun _ _ _ => ⟨w, h⟩

/-- A measurement stub that reports back the line count it was handed, so
a theorem can observe which line count `get_title_dimensions` passes to
the external measurement. -/
def probeLineCount : Measure := fun _ _ n => ⟨(n : Int), (n : Int)⟩

/-- A concrete card request with both index texts visible (the spec's
end-to-end scenario). -/
def iSample : CardInputs where
  source_file := "source.jpg"
  card_file := "card.jpg"
  title_text := "HELLO"
  season_text := "SEASON 1"
  episode_text := "EPISODE 1"

/-- The sample request with both season and episode text hidden. -/
def iBothHidden : CardInputs :=
  { iSample with hide_season_text := true, hide_episode_text := true }

/-- The sample request with a title text that ends in a newline. -/
def iNewlineTitle : CardInputs := { iSample with title_text := "A\n" }

/-- The sample request with a vertical shift of 5. -/
def iShift5 : CardInputs := { iSample with font_vertical_shift := 5 }

/-- The sample request with user interline spacing 10. -/
def iSpacing10 : CardInputs := { iSample with font_interline_spacing := 10 }

theorem digitChar_isDigit : ∀ d : Nat, d < 10 → (Nat.digitChar d).isDigit = true := by
  decide

theorem mem_toDigitsCore_of_mem_acc :
    ∀ (fuel n : Nat) (acc : List Char) (c : Char),
      c ∈ acc → c ∈ Nat.toDigitsCore 10 fuel n acc := by
  intro fuel
  induction fuel with
  | zero => intro n acc c h; simpa [Nat.toDigitsCore] using h
  | succ fuel ih =>
      intro n acc c h
      simp only [Nat.toDigitsCore]
      split
      · exact List.mem_cons_of_mem _ h
      · exact ih _ _ _ (List.mem_cons_of_mem _ h)

theorem repr_has_digit (n : Nat) :
    ∃ c ∈ (Nat.repr n).data, c.isDigit = true := by
  have hd : (Nat.digitChar (n % 10)).isDigit = true :=
    digitChar_isDigit _ (Nat.mod_lt _ (by norm_num))
  have hdata : (Nat.repr n).data = Nat.toDigits 10 n := rfl
  rw [hdata]
  unfold Nat.toDigits
  simp only [Nat.toDigitsCore]
  split
  · exact ⟨_, List.mem_cons_self _ _, hd⟩
  · exact ⟨_, mem_toDigitsCore_of_mem_acc _ _ _ _ (List.mem_cons_self _ _), hd⟩

theorem hasSubstr_mem {s t : String} (h : hasSubstr s t) {c : Char}
    (hc : c ∈ t.data) : c ∈ s.data := by
  obtain ⟨l, r, hs⟩ := h
  rw [hs]
  simp only [List.mem_append]
  exact Or.inl (Or.inr hc)

theorem season_literal_no_digit :
    ∀ c ∈ "SEASON {season_number}".data, c.isDigit = false := by
  decide

/-- C1 counterexample: for the concrete request `iBothHidden` (both
season and episode text hidden), the index-layer operation list is indeed
empty, but — contrary to the claim — the Layout Calculator's title-text
measurement is never performed during `create`: the external measurement
capability is invoked zero times. -/
theorem create_both_hidden_skips_measurement_cex :
    (index_text_commands (constMeasure 500 100) (initState iBothHidden)).1 = [] ∧
    (create (constMeasure 500 100) (initState iBothHidden)).2.measure_calls = 0 := by
  decide

/-- C1 (amended): for every request with both season and episode text
hidden, the assembled operation list contains no index-text layer at all
(it is exactly the gradient, the three title layers, the mask and the
output resize), and the title-text measurement is never performed during
the build: the external measurement capability is invoked zero times. -/
theorem create_both_hidden_no_measurement (i : CardInputs) (m : Measure)
    (hs : i.hide_season_text = true) (he : i.hide_episode_text = true) :
    (create m (initState i)).1 =
      [Op.convert, Op.loadSource i.source_file]
        ++ resize_and_style ++ gradient_commands
        ++ title_text_commands (TimelessTitleCard.init i)
        ++ title_text_infill_commands (TimelessTitleCard.init i)
        ++ title_text_gears_commands (TimelessTitleCard.init i)
        ++ add_overlay_mask i.source_file ++ resize_output
        ++ [Op.writeOutput i.card_file] ∧
    (create m (initState i)).2.measure_calls = 0 := by
  constructor
  · simp [create, index_text_commands, index_text_infill_commands,
      index_text_gears_commands, initState, TimelessTitleCard.init, hs, he]
  · simp [create, index_text_commands, index_text_infill_commands,
      index_text_gears_commands, initState, TimelessTitleCard.init, hs, he]

theorem create_both_hidden_no_measurement_witness :
    iBothHidden.hide_season_text = true ∧ iBothHidden.hide_episode_text = true ∧
    ((create (constMeasure 500 100) (initState iBothHidden)).1 =
      [Op.convert, Op.loadSource iBothHidden.source_file]
        ++ resize_and_style ++ gradient_commands
        ++ title_text_commands (TimelessTitleCard.init iBothHidden)
        ++ title_text_infill_commands (TimelessTitleCard.init iBothHidden)
        ++ title_text_gears_commands (TimelessTitleCard.init iBothHidden)
        ++ add_overlay_mask iBothHidden.source_file ++ resize_output
        ++ [Op.writeOutput iBothHidden.card_file] ∧
    (create (constMeasure 500 100) (initState iBothHidden)).2.measure_calls = 0) :=
  ⟨rfl, rfl,
    create_both_hidden_no_measurement iBothHidden (constMeasure 500 100) rfl rfl⟩

/-- C2: whenever at least one of season and episode text is visible, the
index-text string embedded in each of the three index layers (Main,
Infill, Gears) is identical and equals the specification's resolution
rule: episode text alone when season text is hidden, season text alone
when episode text is hidden, otherwise season text, a space, the
middle-dot bullet, a space, then the episode text. -/
theorem index_text_resolution (s : CardState) (m : Measure)
    (h : (s.card.hide_season_text && s.card.hide_episode_text) = false) :
    annotateTexts (index_text_commands m s).1 =
      [specIndexText s.card.season_text s.card.episode_text
        s.card.hide_season_text s.card.hide_episode_text] ∧
    annotateTexts (index_text_infill_commands m s).1 =
      [specIndexText s.card.season_text s.card.episode_text
        s.card.hide_season_text s.card.hide_episode_text] ∧
    annotateTexts (index_text_gears_commands m s).1 =
      [specIndexText s.card.season_text s.card.episode_text
        s.card.hide_season_text s.card.hide_episode_text] := by
  refine ⟨?_, ?_, ?_⟩ <;>
    simp [index_text_commands, index_text_infill_commands,
      index_text_gears_commands, annotateTexts, specIndexText, h]

theorem index_text_resolution_witness :
    ((initState iSample).card.hide_season_text &&
      (initState iSample).card.hide_episode_text) = false ∧
    annotateTexts (index_text_commands (constMeasure 500 100) (initState iSample)).1 =
      [specIndexText (initState iSample).card.season_text
        (initState iSample).card.episode_text
        (initState iSample).card.hide_season_text
        (initState iSample).card.hide_episode_text] ∧
    annotateTexts
        (index_text_infill_commands (constMeasure 500 100) (initState iSample)).1 =
      [specIndexText (initState iSample).card.season_text
        (initState iSample).card.episode_text
        (initState iSample).card.hide_season_text
        (initState iSample).card.hide_episode_text] ∧
    annotateTexts
        (index_text_gears_commands (constMeasure 500 100) (initState iSample)).1 =
      [specIndexText (initState iSample).card.season_text
        (initState iSample).card.episode_text
        (initState iSample).card.hide_season_text
        (initState iSample).card.hide_episode_text] :=
  ⟨by decide, index_text_resolution (initState iSample) (constMeasure 500 100) (by decide)⟩

/-- C3 counterexample: for the concrete request `iNewlineTitle` (raw
title text `"A\n"`), the `line_count` attribute computed at construction
is 2, but the line count actually handed to the external measurement by
`get_title_dimensions` — observed here through a measurement stub that
echoes it back — is 1, so the construction-time count is not the count
used for the title-dimension measurement. -/
theorem line_count_not_used_for_measurement_cex :
    (TimelessTitleCard.init iNewlineTitle).line_count = 2 ∧
    (get_title_dimensions probeLineCount (initState iNewlineTitle)).1.height = 1 ∧
    (get_title_dimensions probeLineCount (initState iNewlineTitle)).1.height ≠
      ((TimelessTitleCard.init iNewlineTitle).line_count : Int) := by
  decide

/-- C3 (amended): the `line_count` attribute equals the number of
newline-separated segments of the raw (pre-escaping) title text and is
computed once at construction; but the title-dimension measurement does
not use it — `get_title_dimensions` recomputes the count as the
`splitlines` length of the escaped title text, which can differ (the
stored `line_count` is in fact used nowhere in the module). -/
theorem line_count_construction_and_measurement (i : CardInputs) (m : Measure) :
    (TimelessTitleCard.init i).line_count = (pySplit i.title_text '\n').length ∧
    (get_title_dimensions m (initState i)).1 =
      m (title_text_commands (TimelessTitleCard.init i))
        (TimelessTitleCard.init i).font_interline_spacing
        (pySplitlines (escape_chars i.title_text)).length :=
  ⟨rfl, rfl⟩

/-- C4: on one card instance, calling `get_title_dimensions` twice
invokes the external measurement capability exactly once — the second
call returns the value memoized by the first — and both calls return
identical dimensions. -/
theorem get_title_dimensions_memoized (i : CardInputs) (m : Measure) :
    (get_title_dimensions m ((get_title_dimensions m (initState i)).2)).1 =
      (get_title_dimensions m (initState i)).1 ∧
    (get_title_dimensions m ((get_title_dimensions m (initState i)).2)).2.measure_calls
      = 1 := by
  simp [get_title_dimensions, initState]

/-- C5: the title vertical offset `y` equals `47 + font_vertical_shift`,
and (whenever index layers are emitted) the index layer's annotation
offset equals that title offset plus the measured title height minus
10. -/
theorem title_and_index_offsets (i : CardInputs) (m : Measure)
    (h : (i.hide_season_text && i.hide_episode_text) = false) :
    (TimelessTitleCard.init i).y = 47 + i.font_vertical_shift ∧
    annotateYOffsets (index_text_commands m (initState i)).1 =
      [(TimelessTitleCard.init i).y
        + (get_title_dimensions m (initState i)).1.height - 10] := by
  refine ⟨rfl, ?_⟩
  simp [index_text_commands, annotateYOffsets, initState, TimelessTitleCard.init, h]

theorem title_and_index_offsets_witness :
    (iShift5.hide_season_text && iShift5.hide_episode_text) = false ∧
    (TimelessTitleCard.init iShift5).y = 52 ∧
    annotateYOffsets
        (index_text_commands (constMeasure 500 100) (initState iShift5)).1 = [142] := by
  have h := title_and_index_offsets iShift5 (constMeasure 500 100) (by decide)
  refine ⟨by decide, ?_, ?_⟩
  · rw [h.1]; decide
  · rw [h.2]; decide

/-- C6: the operation list assembled by `create` is exactly the source
load and resize-and-style, then the gradient, then the three index-text
layers in the order Main, Infill, Gears (each possibly empty), then the
three title-text layers in the order Main, Infill, Gears, then the
mask-application operation, then the output-resize operation, then the
output write — so all index-text-layer operations occur before all
title-text-layer operations, which occur before the mask application,
which occurs before the output resize. -/
theorem create_pipeline_order (i : CardInputs) (m : Measure) :
    (create m (initState i)).1 =
      [Op.convert, Op.loadSource i.source_file]
        ++ resize_and_style ++ gradient_commands
        ++ (index_text_commands m (initState i)).1
        ++ (index_text_infill_commands m (index_text_commands m (initState i)).2).1
        ++ (index_text_gears_commands m
              (index_text_infill_commands m (index_text_commands m (initState i)).2).2).1
        ++ title_text_commands (TimelessTitleCard.init i)
        ++ title_text_infill_commands (TimelessTitleCard.init i)
        ++ title_text_gears_commands (TimelessTitleCard.init i)
        ++ add_overlay_mask i.source_file ++ resize_output
        ++ [Op.writeOutput i.card_file] := rfl

/-- C7: the interline-spacing value stored at construction and passed to
the renderer for title text equals the user-supplied interline spacing
minus 50 (it appears as the fifth title-layer subcommand); in particular
a user value of 10 yields -40. -/
theorem interline_spacing_transform (i : CardInputs) :
    (TimelessTitleCard.init i).font_interline_spacing =
      -50 + i.font_interline_spacing ∧
    (title_text_commands (TimelessTitleCard.init i))[4]? =
      some (Op.interlineSpacing (-50 + i.font_interline_spacing)) ∧
    (i.font_interline_spacing = 10 →
      (TimelessTitleCard.init i).font_interline_spacing = -40) := by
  refine ⟨rfl, rfl, ?_⟩
  intro h
  rw [show (TimelessTitleCard.init i).font_interline_spacing =
    -50 + i.font_interline_spacing from rfl, h]
  decide

theorem interline_spacing_transform_witness :
    iSpacing10.font_interline_spacing = 10 ∧
    (TimelessTitleCard.init iSpacing10).font_interline_spacing = -40 :=
  ⟨rfl, (interline_spacing_transform iSpacing10).2.2 rfl⟩

/-- C8: the three title layers embed the identical escaped title text at
the identical gravity (south), point size (256 times the font size
multiplier), kerning (0), interline spacing and vertical offset,
differing only in the font file and the fill color; and the escaping of
title, season and episode text is the single construction-time
`escape_chars` application, so no layer double-escapes. -/
theorem title_layers_identical_params (i : CardInputs) :
    title_text_commands (TimelessTitleCard.init i) =
      [ Op.font i.font_file,
        Op.gravity "south",
        Op.pointsize (256 * i.font_size),
        Op.kerning 0,
        Op.interlineSpacing (-50 + i.font_interline_spacing),
        Op.background "transparent",
        Op.fill i.font_color,
        Op.annotate 0 (47 + i.font_vertical_shift) (escape_chars i.title_text) ] ∧
    title_text_infill_commands (TimelessTitleCard.init i) =
      [ Op.font TITLE_FONT_INFILL,
        Op.gravity "south",
        Op.pointsize (256 * i.font_size),
        Op.kerning 0,
        Op.interlineSpacing (-50 + i.font_interline_spacing),
        Op.background "transparent",
        Op.fill TITLE_COLOR_INFILL,
        Op.annotate 0 (47 + i.font_vertical_shift) (escape_chars i.title_text) ] ∧
    title_text_gears_commands (TimelessTitleCard.init i) =
      [ Op.font TITLE_FONT_GEARS,
        Op.gravity "south",
        Op.pointsize (256 * i.font_size),
        Op.kerning 0,
        Op.interlineSpacing (-50 + i.font_interline_spacing),
        Op.background "transparent",
        Op.fill TITLE_COLOR_GEARS,
        Op.annotate 0 (47 + i.font_vertical_shift) (escape_chars i.title_text) ] ∧
    (TimelessTitleCard.init i).season_text = escape_chars i.season_text ∧
    (TimelessTitleCard.init i).episode_text = escape_chars i.episode_text :=
  ⟨rfl, rfl, rfl, rfl, rfl⟩

/-- C9: for every font and extras input, `is_custom_font` fails with a
name-resolution error, because the class `FontPreviewTitleCard` that its
body references is neither defined nor imported in the module; it never
returns a boolean. -/
theorem is_custom_font_name_error (font : Font) (extras : List (String × String)) :
    is_custom_font font extras =
      Except.error "NameError: name FontPreviewTitleCard is not defined" ∧
    "FontPreviewTitleCard" ∉ moduleScopeNames ∧
    ∀ b : Bool, is_custom_font font extras ≠ Except.ok b :=
  ⟨rfl, by decide, fun b h => by simp [is_custom_font, moduleScopeNames] at h⟩

/-- C10: `SEASON_TEXT_FORMATTER` returns the literal `SPECIALS` when the
season number is 0, and otherwise returns the literal, unformatted string
`SEASON {season_number}` with the placeholder not substituted — so for a
nonzero season the result never contains the decimal representation of
the actual season number. -/
theorem season_text_formatter_spec (e : EpisodeInfo) :
    (e.season_number = 0 → SEASON_TEXT_FORMATTER e = "SPECIALS") ∧
    (e.season_number ≠ 0 →
      SEASON_TEXT_FORMATTER e = "SEASON {season_number}" ∧
      ¬ hasSubstr (SEASON_TEXT_FORMATTER e) (Nat.repr e.season_number)) := by
  constructor
  · intro h
    simp [SEASON_TEXT_FORMATTER, h]
  · intro h
    have hf : SEASON_TEXT_FORMATTER e = "SEASON {season_number}" := by
      simp [SEASON_TEXT_FORMATTER, h]
    refine ⟨hf, ?_⟩
    intro hsub
    obtain ⟨c, hc, hcd⟩ := repr_has_digit e.season_number
    have hmem : c ∈ (SEASON_TEXT_FORMATTER e).data := hasSubstr_mem hsub hc
    rw [hf] at hmem
    have hnd := season_literal_no_digit c hmem
    rw [hcd] at hnd
    exact absurd hnd (by decide)

theorem season_text_formatter_spec_witness :
    SEASON_TEXT_FORMATTER ⟨5, 1⟩ = "SEASON {season_number}" ∧
    ¬ hasSubstr (SEASON_TEXT_FORMATTER ⟨5, 1⟩) (Nat.repr 5) ∧
    SEASON_TEXT_FORMATTER ⟨0, 1⟩ = "SPECIALS" :=
  ⟨((season_text_formatter_spec ⟨5, 1⟩).2 (by decide)).1,
   ((season_text_formatter_spec ⟨5, 1⟩).2 (by decide)).2,
   (season_text_formatter_spec ⟨0, 1⟩).1 rfl⟩

theorem is_custom_font_name_error_witness :
    is_custom_font ⟨"Font.ttf", "#FFFFFF"⟩ [] =
      Except.error "NameError: name FontPreviewTitleCard is not defined" :=
  (is_custom_font_name_error ⟨"Font.ttf", "#FFFFFF"⟩ []).1
